import Mathlib

/-!
Verification of the Data Refresh & Cache Coordinator of `biotech-monitor`
(`src/frontend/src/lib/services/marketDataService.ts` and the refresh-workflow
parts of `src/frontend/src/app/components/market/MarketDashboard.tsx`).

The service is single-threaded, event-driven JavaScript.  We embed it as pure
Lean functions: the mutable fields of `StaticMarketDataService` become an
explicit `ServiceState` record threaded through each operation, the network is
an explicit response argument, and JavaScript/JSON values are modelled by the
inductive `JSVal`.  Time (`Date.now()`) is an explicit `now : Int` in epoch
milliseconds, and `new Date(string).getTime()` is an explicit
`parseDate : String → Int` parameter (the ECMAScript date parser is not
re-implemented; concrete instantiations in witnesses use values the real
parser produces, e.g. `"1970-01-01T00:00:00Z" ↦ 0`).
-/

namespace Biotech

/-- A JavaScript value as it can appear in a parsed JSON payload.  JSON cannot
encode `NaN`, `Infinity` or `undefined`, so numbers carry a rational and an
absent property is `Option.none` rather than a value. -/
inductive JSVal where
  | vnull : JSVal
  | vbool : Bool → JSVal
  | vnum : ℚ → JSVal
  | vstr : String → JSVal
  | varr : List JSVal → JSVal
  | vobj : List (String × JSVal) → JSVal

/-- JavaScript truthiness: `null`, `false`, `0`, `""` are falsy; every object
and array is truthy. -/
def truthy : JSVal → Bool
  | .vnull => false
  | .vbool b => b
  | .vnum q => decide (q ≠ 0)
  | .vstr s => decide (s ≠ "")
  | .varr _ => true
  | .vobj _ => true

/-- The check `typeof v === 'object'`.  In JavaScript `typeof null` is `'object'`;
arrays are objects too. -/
def typeofIsObject : JSVal → Bool
  | .vnull => true
  | .varr _ => true
  | .vobj _ => true
  | _ => false

/-- Interpret a list of characters as a decimal natural number; all characters
must be digits.  The empty list yields 0 (callers guard emptiness). -/
def digitsToNat (cs : List Char) : Option Nat :=
  cs.foldl
    (fun acc c =>
      acc.bind fun n => if c.isDigit then some (10 * n + (c.toNat - 48)) else none)
    (some 0)

/-- A string read as an array index: a non-empty run of decimal digits. -/
def strToIndex (k : String) : Option Nat :=
  match k.toList with
  | [] => none
  | cs => digitsToNat cs

/-- Property access `v[k]` returning `none` for `undefined`.  Objects look the
key up among their fields (JSON keys are unique); arrays expose `length` and
their numeric indices. -/
def getProp : JSVal → String → Option JSVal
  | .vobj fields, k => fields.lookup k
  | .varr xs, k =>
      if k = "length" then some (.vnum xs.length)
      else (strToIndex k).bind fun i => xs.get? i
  | _, _ => none

/-- The check `k in v`: the property exists. -/
def hasProp (v : JSVal) (k : String) : Bool := (getProp v k).isSome

/-- The check `typeof v[k] === 'string'`. -/
def propIsString (v : JSVal) (k : String) : Bool :=
  match getProp v k with
  | some (.vstr _) => true
  | _ => false

/-- An unsigned decimal numeral, optionally with a fractional part, as accepted
by JavaScript `Number(...)` on strings: `"12"`, `"12.5"`, `"12."`, `".5"`.
`none` means the text is not numeric (`NaN`). -/
def parseUnsignedDec (cs : List Char) : Option ℚ :=
  let ip := cs.takeWhile (fun c => c ≠ '.')
  match cs.dropWhile (fun c => c ≠ '.') with
  | [] => if ip.isEmpty then none else (digitsToNat ip).map (fun n => (n : ℚ))
  | _ :: fp =>
      if ip.isEmpty && fp.isEmpty then none
      else
        match digitsToNat ip, digitsToNat fp with
        | some i, some f => some ((i : ℚ) + (f : ℚ) / (10 : ℚ) ^ fp.length)
        | _, _ => none

/-- JavaScript `Number(s)` for a string: surrounding whitespace is trimmed, the
empty string is 0, otherwise an optionally signed decimal numeral.  `none`
represents `NaN`.  (Hexadecimal, exponent and `Infinity` forms are not
modelled; no payload in scope uses them.) -/
def strToNum (s : String) : Option ℚ :=
  match s.trim.toList with
  | [] => some 0
  | '+' :: cs => parseUnsignedDec cs
  | '-' :: cs => (parseUnsignedDec cs).map (fun q => -q)
  | cs => parseUnsignedDec cs

/-- JavaScript `Number(v)` coercion; `none` represents `NaN`.
`Number(null) = 0`, booleans map to 0/1, numbers are themselves, strings parse
per `strToNum`, the empty array coerces through `""` to 0, and objects and
other arrays coerce (via `ToPrimitive`) to `NaN` in every case relevant here. -/
def toNumber : JSVal → Option ℚ
  | .vnull => some 0
  | .vbool b => some (if b then 1 else 0)
  | .vnum q => some q
  | .vstr s => strToNum s
  | .varr [] => some 0
  | .varr (_ :: _) => none
  | .vobj _ => none

/-- One record check of `validateStockData` (marketDataService.ts lines 28-37):
`item && typeof item === 'object' && 'symbol' in item &&
typeof item.symbol === 'string' && 'price' in item &&
!isNaN(Number(item.price)) && 'timestamp' in item &&
typeof item.timestamp === 'string'`. -/
def isValidStockItem (item : JSVal) : Bool :=
  truthy item && typeofIsObject item &&
  hasProp item "symbol" && propIsString item "symbol" &&
  hasProp item "price" && ((getProp item "price").bind toNumber).isSome &&
  hasProp item "timestamp" && propIsString item "timestamp"

/-- The function `validateStockData` (marketDataService.ts lines 27-38):
`Array.isArray(data) && data.every(item => ...)`. -/
def validateStockData : JSVal → Bool
  | .varr items => items.all isValidStockItem
  | _ => false

/-- The constant `CACHE_DURATION = 5 * 60 * 1000` milliseconds. -/
def CACHE_DURATION : Int := 5 * 60 * 1000

/-- The mutable fields of `StaticMarketDataService`:
`API_URL` (read from the environment at construction), `lastUpdated`
(epoch milliseconds, `none` = `null`), `cache` (the stored `Stock[]`), and the
in-flight guard `isFetching`. -/
structure ServiceState where
  apiUrl : Option String
  lastUpdated : Option Int
  cache : List JSVal
  isFetching : Bool

/-- The state of a freshly constructed service: empty cache, `null`
`lastUpdated`, guard down. -/
def initialState (apiUrl : Option String) : ServiceState :=
  { apiUrl := apiUrl, lastUpdated := none, cache := [], isFetching := false }

/-- The predicate `isDataValid` (marketDataService.ts lines 40-46):
`this.cache.length > 0 && this.lastUpdated !== null &&
Date.now() - this.lastUpdated.getTime() < this.CACHE_DURATION`. -/
def isDataValid (s : ServiceState) (now : Int) : Bool :=
  decide (s.cache.length > 0) &&
  (match s.lastUpdated with
   | some t => decide (now - t < CACHE_DURATION)
   | none => false)

/-- The possible outcomes of the `fetch` + body-reading sequence for the
snapshot endpoint, as observed by `fetchMarketData`'s `try` block:
the transport rejects, the response is non-2xx (with its body text), the body
fails to parse as JSON, or a parsed JSON body arrives. -/
inductive FetchResp where
  | transportError : String → FetchResp
  | httpError : Nat → String → FetchResp
  | jsonError : String → FetchResp
  | ok : JSVal → FetchResp

/-- How a `fetchMarketData()` call settles: `resolved` / `rejected` are the
promise outcomes; `waiting` marks a call that took the `waitForCache()` path
(its resolution is decided later by `waitForCacheResult`). -/
inductive FetchOutcome where
  | resolved : List JSVal → FetchOutcome
  | rejected : String → FetchOutcome
  | waiting : FetchOutcome

/-- The `catch` clause of `fetchMarketData` (lines 102-109): with a non-empty
cache the stale snapshot is returned, otherwise the call rejects with
`Failed to fetch market data: <message>`. -/
def fetchCatch (s : ServiceState) (errMsg : String) : FetchOutcome × ServiceState :=
  if s.cache.length > 0 then (.resolved s.cache, s)
  else (.rejected ("Failed to fetch market data: " ++ errMsg), s)

/-- The array items of a payload that passed `validateStockData` (which only
accepts arrays). -/
def asItems : JSVal → List JSVal
  | .varr items => items
  | _ => []

/-- The value `data[data.length - 1].timestamp` for a validated non-empty payload;
validation guarantees the last item carries a string `timestamp`. -/
def lastTimestamp (items : List JSVal) : String :=
  match items.getLast? with
  | some item =>
      match getProp item "timestamp" with
      | some (.vstr t) => t
      | _ => ""
  | none => ""

/-- The `try` block of `fetchMarketData` (lines 70-109, `catch` included),
entered with the guard already set.  The third component records whether the
outbound snapshot request was issued.  The missing-URL check precedes the
`fetch`, so that branch performs no network request. -/
def fetchTry (parseDate : String → Int) (resp : FetchResp) (s : ServiceState) :
    FetchOutcome × ServiceState × Bool :=
  match s.apiUrl with
  | none =>
      let r := fetchCatch s "API URL is not configured. Please check your environment variables."
      (r.1, r.2, false)
  | some _ =>
      match resp with
      | .transportError m =>
          let r := fetchCatch s m
          (r.1, r.2, true)
      | .httpError status bodyText =>
          let r := fetchCatch s
            ("HTTP error! status: " ++ toString status ++ ", message: " ++ bodyText)
          (r.1, r.2, true)
      | .jsonError m =>
          let r := fetchCatch s m
          (r.1, r.2, true)
      | .ok body =>
          if validateStockData body then
            let items := asItems body
            let s1 :=
              if items.length > 0 then
                { s with lastUpdated := some (parseDate (lastTimestamp items)) }
              else s
            (.resolved items, { s1 with cache := items }, true)
          else
            let r := fetchCatch s "Invalid market data format received from server"
            (r.1, r.2, true)

/-- The method `fetchMarketData` (lines 59-113): serve a valid cache without I/O; defer to
`waitForCache` while a fetch is in flight; otherwise raise the guard, run the
`try`/`catch` body, and lower the guard in `finally`. -/
def fetchMarketData (parseDate : String → Int) (now : Int) (resp : FetchResp)
    (s : ServiceState) : FetchOutcome × ServiceState × Bool :=
  if isDataValid s now then (.resolved s.cache, s, false)
  else if s.isFetching then (.waiting, s, false)
  else
    let r := fetchTry parseDate resp { s with isFetching := true }
    (r.1, { r.2.1 with isFetching := false }, r.2.2)

/-- The possible outcomes of the `fetch` + (on failure) `response.json()`
sequence for the refresh-trigger endpoint, as observed by `refreshData`.
For a non-2xx response the body is the parsed JSON if parsing succeeded
(`response.json().catch(() => null)`), else `none`.  A 2xx response carries a
body that `refreshData` never reads. -/
inductive RefreshResp where
  | transportError : String → RefreshResp
  | httpError : Nat → String → Option JSVal → RefreshResp
  | ok : JSVal → RefreshResp

/-- The expression `data?.message || <fallback>`: the body's `message` field is used when it
is a truthy string.  (A truthy non-string `message` would be stringified by
`new Error`; no payload in scope carries one.) -/
def bodyMessage : Option JSVal → Option String
  | some (.vobj fields) =>
      match fields.lookup "message" with
      | some (.vstr m) => if m = "" then none else some m
      | _ => none
  | _ => none

/-- The method `refreshData` (marketDataService.ts lines 115-139): require the API URL,
POST the trigger, reject non-2xx responses with the body message or a default,
and on any 2xx response clear the cache and `lastUpdated` and resolve.
The body of a 2xx response is not inspected. -/
def refreshData (resp : RefreshResp) (s : ServiceState) :
    Except String Unit × ServiceState :=
  match s.apiUrl with
  | none => (.error "API URL is not configured", s)
  | some _ =>
      match resp with
      | .transportError m => (.error m, s)
      | .httpError status statusText body =>
          (.error ((bodyMessage body).getD
            ("Failed to refresh data: " ++ toString status ++ " " ++ statusText)), s)
      | .ok _ => (.ok (), { s with cache := [], lastUpdated := none })

/-- The handler `handleRefresh` (MarketDashboard.tsx lines 453-464, current component):
`await marketDataService.refreshData()` and then start `pollRefreshStatus()`;
on a rejection set the error message and stop.  The first component records
whether the polling loop was entered, the second the error shown. -/
def handleRefresh (resp : RefreshResp) (s : ServiceState) :
    Bool × Option String × ServiceState :=
  match refreshData resp s with
  | (.ok _, s') => (true, none, s')
  | (.error e, s') => (false, some ("Failed to refresh data: " ++ e), s')

/-- The refresh job status object returned by the status endpoint
(`RefreshStatus` in marketDataService.ts lines 11-18). -/
structure RefreshStatus where
  status : String
  progress : Int
  current_ticker : String
  total_tickers : Int
  processed_tickers : Int
  error : Option String

/-- What one turn of `pollRefreshStatus` does after receiving a status. -/
inductive PollAction where
  | continuePolling : PollAction
  | finished : FetchOutcome → PollAction
  | halt : PollAction

/-- One turn of `pollRefreshStatus` (MarketDashboard.tsx lines 417-434,
current component) after the status GET succeeded with `st`:
`running` schedules the next poll; `complete` runs `fetchData()`, i.e. a
`marketDataService.fetchMarketData()` call, with **no cache invalidation in
between**; any other status ends the loop.  The third component records
whether a snapshot network request was issued by this turn. -/
def pollRefreshStatusStep (parseDate : String → Int) (now : Int)
    (fetchResp : FetchResp) (st : RefreshStatus) (s : ServiceState) :
    PollAction × ServiceState × Bool :=
  if st.status = "running" then (.continuePolling, s, false)
  else if st.status = "complete" then
    let r := fetchMarketData parseDate now fetchResp s
    (.finished r.1, r.2.1, r.2.2)
  else (.halt, s, false)

/-- The resolution of a `waitForCache()` promise (marketDataService.ts lines
48-57) once the system is quiescent: its interval resolves with the current
cache when `!this.isFetching && this.cache.length > 0`; if that condition is
false after the in-flight fetch has completed and no further task runs, it
stays false on every later tick, so the promise never resolves (`none`). -/
def waitForCacheResult (s : ServiceState) : Option (List JSVal) :=
  if !s.isFetching && s.cache.length > 0 then some s.cache else none

/-- The observable result of `n` interleaved `fetchMarketData()` calls. -/
structure ConcResult where
  firstOutcome : FetchOutcome
  laterOutcomes : List FetchOutcome
  waiterResolves : Option (List JSVal)
  finalState : ServiceState
  networkCalls : Nat

/-- Running `n` interleaved `fetchMarketData()` calls in one event-loop scenario:
caller 1 runs its synchronous prefix (cache check, guard check, guard set) and
suspends at `await fetch`; callers 2..n then run against the guarded state;
the response arrives and caller 1's continuation (`try`/`catch`/`finally`)
completes; finally the waiters' intervals poll the now-quiescent state.
Each caller's network flag is summed into `networkCalls`. -/
def runConcurrent (n : Nat) (parseDate : String → Int) (now : Int)
    (resp : FetchResp) (s0 : ServiceState) : ConcResult :=
  let first := fetchMarketData parseDate now resp s0
  let sGuard := { s0 with isFetching := true }
  let laterCalls := List.replicate (n - 1) (fetchMarketData parseDate now resp sGuard)
  { firstOutcome := first.1
    laterOutcomes := laterCalls.map (fun c => c.1)
    waiterResolves := waitForCacheResult first.2.1
    finalState := first.2.1
    networkCalls :=
      (if first.2.2 then 1 else 0) +
        (laterCalls.map (fun c => if c.2.2 then 1 else 0)).sum }

/-! ## Concrete fixtures -/

/-- A well-formed stock record as in spec E2E scenario A. -/
def abcRecord : JSVal :=
  .vobj [("symbol", .vstr "ABC"), ("price", .vnum (21/2)),
         ("timestamp", .vstr "1970-01-01T00:00:00Z")]

/-- A record whose `symbol` is the empty string but which otherwise satisfies
the schema. -/
def emptySymbolRecord : JSVal :=
  .vobj [("symbol", .vstr ""), ("price", .vnum 10),
         ("timestamp", .vstr "1970-01-01T00:00:00Z")]

/-- A payload whose only record has an empty `symbol`. -/
def emptySymbolPayload : JSVal := .varr [emptySymbolRecord]

/-- A freshly constructed service with a configured API URL. -/
def coldState : ServiceState := initialState (some "http://localhost:8000")

/-- A service holding a cached snapshot stored with timestamp 900000 ms;
at `now = 1000000` the entry is 100000 ms old, inside the 5-minute TTL. -/
def warmState : ServiceState :=
  { apiUrl := some "http://localhost:8000", lastUpdated := some 900000,
    cache := [abcRecord], isFetching := false }

/-- A service holding a stale snapshot (timestamp 0; at `now = 1000000` the
entry is well past the 5-minute TTL). -/
def staleState : ServiceState :=
  { apiUrl := some "http://localhost:8000", lastUpdated := some 0,
    cache := [abcRecord], isFetching := false }

/-- A service with a stale snapshot and **no** configured API URL. -/
def staleNoUrlState : ServiceState :=
  { apiUrl := none, lastUpdated := some 0, cache := [abcRecord],
    isFetching := false }

/-! ## Helper lemmas -/

/-- On a cache miss with the guard down, `fetchMarketData` is the guarded
`try` body followed by the `finally` that lowers the guard. -/
theorem fetchMarketData_miss (parseDate : String → Int) (now : Int)
    (resp : FetchResp) (s : ServiceState)
    (hvalid : isDataValid s now = false) (hflight : s.isFetching = false) :
    fetchMarketData parseDate now resp s =
      ((fetchTry parseDate resp { s with isFetching := true }).1,
       { (fetchTry parseDate resp { s with isFetching := true }).2.1 with
           isFetching := false },
       (fetchTry parseDate resp { s with isFetching := true }).2.2) := by
  simp [fetchMarketData, hvalid, hflight]

theorem fetchCatch_nonempty (s : ServiceState) (m : String)
    (h : s.cache ≠ []) : fetchCatch s m = (.resolved s.cache, s) := by
  simp [fetchCatch, List.length_pos.mpr h]

theorem fetchCatch_empty (s : ServiceState) (m : String) (h : s.cache = []) :
    fetchCatch s m = (.rejected ("Failed to fetch market data: " ++ m), s) := by
  simp [fetchCatch, h]

/-- A failing network interaction on the snapshot endpoint: transport error,
non-success HTTP status, JSON parse failure, or a payload failing
`validateStockData`. -/
def FailedResp : FetchResp → Prop
  | .transportError _ => True
  | .httpError _ _ => True
  | .jsonError _ => True
  | .ok body => validateStockData body = false

/-- A cache hit is served unchanged with no network request. -/
theorem fetchMarketData_hit (parseDate : String → Int) (now : Int)
    (resp : FetchResp) (s : ServiceState) (h : isDataValid s now = true) :
    fetchMarketData parseDate now resp s = (.resolved s.cache, s, false) := by
  simp [fetchMarketData, h]

/-- Every completed call leaves the in-flight flag as it found it. -/
theorem fetchMarketData_isFetching (parseDate : String → Int) (now : Int)
    (resp : FetchResp) (s : ServiceState) :
    (fetchMarketData parseDate now resp s).2.1.isFetching = s.isFetching := by
  simp only [fetchMarketData]
  split
  · rfl
  · split
    · rfl
    · rename_i h1 h2
      simp only [Bool.not_eq_true] at h2
      simp [h2]

/-- A cache miss with the guard down and a configured URL always issues the
network request, whatever the response then is. -/
theorem fetchMarketData_miss_network (parseDate : String → Int) (now : Int)
    (resp : FetchResp) (s : ServiceState)
    (hvalid : isDataValid s now = false) (hflight : s.isFetching = false)
    (u : String) (hu : s.apiUrl = some u) :
    (fetchMarketData parseDate now resp s).2.2 = true := by
  rw [fetchMarketData_miss parseDate now resp s hvalid hflight]
  cases resp with
  | transportError m => simp [fetchTry, hu]
  | httpError status bodyText => simp [fetchTry, hu]
  | jsonError m => simp [fetchTry, hu]
  | ok body =>
      simp only [fetchTry, hu]
      split <;> rfl

/-- With a configured URL and a failing response, the `try` body lands in the
`catch` clause with some message, after issuing the network request. -/
theorem fetchTry_failed (parseDate : String → Int) (resp : FetchResp)
    (s : ServiceState) (u : String) (hu : s.apiUrl = some u)
    (hfail : FailedResp resp) :
    ∃ m, fetchTry parseDate resp s =
      ((fetchCatch s m).1, (fetchCatch s m).2, true) := by
  cases resp with
  | transportError m => exact ⟨m, by simp [fetchTry, hu]⟩
  | httpError status bodyText =>
      exact ⟨"HTTP error! status: " ++ toString status ++ ", message: " ++ bodyText,
        by simp [fetchTry, hu]⟩
  | jsonError m => exact ⟨m, by simp [fetchTry, hu]⟩
  | ok body =>
      refine ⟨"Invalid market data format received from server", ?_⟩
      have hv : validateStockData body = false := hfail
      simp [fetchTry, hu, hv]

/-- The `catch` clause either serves the (non-empty) cache or rejects with an
empty cache, never anything else. -/
theorem fetchCatch_shape (s : ServiceState) (m : String) :
    (fetchCatch s m).1 = .resolved (fetchCatch s m).2.cache ∨
    ((∃ m', (fetchCatch s m).1 = .rejected m') ∧
      (fetchCatch s m).2.cache = [] ∧ s.cache = []) := by
  cases hc : s.cache with
  | nil =>
      right
      rw [fetchCatch_empty s m hc]
      exact ⟨⟨_, rfl⟩, hc, rfl⟩
  | cons a l =>
      left
      rw [fetchCatch_nonempty s m (by simp [hc])]

/-- On a cache miss with the guard down and a configured URL, the call either
resolves with exactly the snapshot left in the cache, or rejects — and a
rejection happens only with the cache empty before and after. -/
theorem fetchMarketData_miss_outcome (parseDate : String → Int) (now : Int)
    (resp : FetchResp) (s : ServiceState)
    (hvalid : isDataValid s now = false) (hflight : s.isFetching = false)
    (u : String) (hu : s.apiUrl = some u) :
    (fetchMarketData parseDate now resp s).1 =
      .resolved (fetchMarketData parseDate now resp s).2.1.cache ∨
    ((∃ m, (fetchMarketData parseDate now resp s).1 = .rejected m) ∧
      (fetchMarketData parseDate now resp s).2.1.cache = [] ∧ s.cache = []) := by
  rw [fetchMarketData_miss parseDate now resp s hvalid hflight]
  by_cases hfail : FailedResp resp
  · obtain ⟨m, hm⟩ :=
      fetchTry_failed parseDate resp { s with isFetching := true } u hu hfail
    rw [hm]
    rcases fetchCatch_shape { s with isFetching := true } m with h | ⟨⟨m', hm'⟩, hc1, hc2⟩
    · left; exact h
    · right; exact ⟨⟨m', hm'⟩, hc1, hc2⟩
  · cases resp with
    | transportError m => exact absurd trivial hfail
    | httpError status bodyText => exact absurd trivial hfail
    | jsonError m => exact absurd trivial hfail
    | ok body =>
        cases hb : validateStockData body with
        | false => exact absurd hb hfail
        | true =>
            left
            simp [fetchTry, hu, hb]

/-! ## C1 -/

/-- C1: when a `fetchMarketData()` call reaches the network path (cache miss,
guard down, URL configured) and the fetch fails — non-success HTTP status,
transport error, JSON parse failure, or payload validation failure — the call
resolves with the previously cached snapshot whenever the cache holds one
(however stale), and rejects if and only if the cache is empty. -/
theorem fetch_failure_stale_over_empty (parseDate : String → Int) (now : Int)
    (resp : FetchResp) (s : ServiceState)
    (hvalid : isDataValid s now = false) (hflight : s.isFetching = false)
    (hurl : s.apiUrl.isSome = true) (hfail : FailedResp resp) :
    (s.cache ≠ [] →
      (fetchMarketData parseDate now resp s).1 = .resolved s.cache) ∧
    (s.cache = [] →
      ∃ m, (fetchMarketData parseDate now resp s).1 = .rejected m) := by
  obtain ⟨u, hu⟩ := Option.isSome_iff_exists.mp hurl
  have hu' : ({ s with isFetching := true } : ServiceState).apiUrl = some u := hu
  obtain ⟨m, hm⟩ :=
    fetchTry_failed parseDate resp { s with isFetching := true } u hu' hfail
  rw [fetchMarketData_miss parseDate now resp s hvalid hflight, hm]
  constructor
  · intro hne
    rw [fetchCatch_nonempty { s with isFetching := true } m hne]
  · intro hemp
    exact ⟨"Failed to fetch market data: " ++ m,
      by rw [fetchCatch_empty { s with isFetching := true } m hemp]⟩

/-- C1 witness: a stale cached snapshot is served through an HTTP 500, and an
empty cache turns the same failure into a rejection. -/
theorem fetch_failure_stale_over_empty_witness :
    (isDataValid staleState 1000000 = false ∧ staleState.isFetching = false ∧
      staleState.apiUrl.isSome = true ∧ staleState.cache ≠ [] ∧
      (fetchMarketData (fun _ => 0) 1000000 (.httpError 500 "boom") staleState).1 =
        .resolved staleState.cache) ∧
    (isDataValid coldState 1000000 = false ∧ coldState.cache = [] ∧
      ∃ m, (fetchMarketData (fun _ => 0) 1000000 (.httpError 500 "boom") coldState).1 =
        .rejected m) := by
  constructor
  · refine ⟨by rfl, by rfl, by rfl, by simp [staleState, abcRecord], ?_⟩
    exact (fetch_failure_stale_over_empty (fun _ => 0) 1000000
      (.httpError 500 "boom") staleState (by rfl) (by rfl) (by rfl)
      (by trivial)).1 (by simp [staleState, abcRecord])
  · refine ⟨by rfl, by rfl, ?_⟩
    exact (fetch_failure_stale_over_empty (fun _ => 0) 1000000
      (.httpError 500 "boom") coldState (by rfl) (by rfl) (by rfl)
      (by trivial)).2 (by rfl)

/-! ## C4 -/

/-- C4: a `fetchMarketData()` call made while the cache is valid resolves with
the cached snapshot, performs no network request, never rejects, and leaves
the whole service state (cache, `lastUpdated`, guard) unchanged. -/
theorem fetch_cache_hit_pure (parseDate : String → Int) (now : Int)
    (resp : FetchResp) (s : ServiceState) (h : isDataValid s now = true) :
    fetchMarketData parseDate now resp s = (.resolved s.cache, s, false) :=
  fetchMarketData_hit parseDate now resp s h

/-- C4 witness: a warm cache at `now = 1000000` is served untouched. -/
theorem fetch_cache_hit_pure_witness :
    isDataValid warmState 1000000 = true ∧
    fetchMarketData (fun _ => 0) 1000000 (.httpError 500 "boom") warmState =
      (.resolved warmState.cache, warmState, false) :=
  ⟨by rfl, fetch_cache_hit_pure (fun _ => 0) 1000000 (.httpError 500 "boom")
    warmState (by rfl)⟩

/-! ## C5 -/

/-- C5: every completed `fetchMarketData()` call leaves the in-flight guard
exactly as it found it — in particular every execution that raises the guard
(the cache-miss body) lowers it in `finally` on all exit paths (success,
validation failure, network failure, missing-configuration failure), so the
flag is false whenever no fetch is executing. -/
theorem fetch_guard_restored (parseDate : String → Int) (now : Int)
    (resp : FetchResp) (s : ServiceState) :
    (fetchMarketData parseDate now resp s).2.1.isFetching = s.isFetching :=
  fetchMarketData_isFetching parseDate now resp s

/-! ## C2 -/

/-- What one record must satisfy to pass `validateStockData`, spelt out:
a (truthy) object carrying a string `symbol` — **emptiness is not checked** —
a present `price` whose `Number()` coercion is not `NaN` — a numeric string
such as `"10.5"` passes — and a string `timestamp`. -/
def RecordAccepted (item : JSVal) : Prop :=
  (∃ fields, item = JSVal.vobj fields) ∧
  (∃ sym, getProp item "symbol" = some (.vstr sym)) ∧
  (∃ p, getProp item "price" = some p ∧ (toNumber p).isSome = true) ∧
  (∃ ts, getProp item "timestamp" = some (.vstr ts))

theorem propIsString_iff (v : JSVal) (k : String) :
    propIsString v k = true ↔ ∃ s, getProp v k = some (.vstr s) := by
  unfold propIsString
  cases h : getProp v k with
  | none => simp
  | some w => cases w <;> simp

theorem getProp_varr_symbol (xs : List JSVal) :
    getProp (.varr xs) "symbol" = none := rfl

theorem isValidStockItem_iff (item : JSVal) :
    isValidStockItem item = true ↔ RecordAccepted item := by
  cases item with
  | vobj fields =>
      constructor
      · intro h
        simp only [isValidStockItem, Bool.and_eq_true] at h
        obtain ⟨⟨⟨⟨⟨⟨⟨_, _⟩, _⟩, h4⟩, _⟩, h6⟩, _⟩, h8⟩ := h
        refine ⟨⟨fields, rfl⟩, (propIsString_iff _ _).mp h4, ?_,
          (propIsString_iff _ _).mp h8⟩
        cases hp : getProp (JSVal.vobj fields) "price" with
        | none => rw [hp] at h6; simp at h6
        | some p =>
            rw [hp] at h6
            exact ⟨p, rfl, by simpa using h6⟩
      · rintro ⟨-, ⟨sym, hsym⟩, ⟨p, hp, hpn⟩, ⟨ts, hts⟩⟩
        simp only [isValidStockItem, Bool.and_eq_true]
        refine ⟨⟨⟨⟨⟨⟨⟨rfl, rfl⟩, ?_⟩, ?_⟩, ?_⟩, ?_⟩, ?_⟩, ?_⟩
        · simp [hasProp, hsym]
        · simp [propIsString, hsym]
        · simp [hasProp, hp]
        · simp [hp, hpn]
        · simp [hasProp, hts]
        · simp [propIsString, hts]
  | vnull => simp [isValidStockItem, truthy, RecordAccepted]
  | vbool b => simp [isValidStockItem, typeofIsObject, RecordAccepted]
  | vnum q => simp [isValidStockItem, typeofIsObject, RecordAccepted]
  | vstr t => simp [isValidStockItem, typeofIsObject, RecordAccepted]
  | varr xs =>
      simp [isValidStockItem, hasProp, propIsString, getProp_varr_symbol,
        RecordAccepted]

/-- The payload-level acceptance condition of `validateStockData`. -/
theorem validateStockData_iff (body : JSVal) :
    validateStockData body = true ↔
      ∃ items, body = .varr items ∧ ∀ item ∈ items, RecordAccepted item := by
  cases body with
  | varr items =>
      simp only [validateStockData, List.all_eq_true]
      constructor
      · intro h
        exact ⟨items, rfl, fun it hit => (isValidStockItem_iff it).mp (h it hit)⟩
      · rintro ⟨items', heq, hall⟩
        injection heq with heq
        subst heq
        exact fun it hit => (isValidStockItem_iff it).mpr (hall it hit)
  | vnull => simp [validateStockData]
  | vbool b => simp [validateStockData]
  | vnum q => simp [validateStockData]
  | vstr t => simp [validateStockData]
  | vobj fields => simp [validateStockData]

/-- C2 counterexample: a payload whose only record carries an **empty**
`symbol` is accepted by `validateStockData`, and a `fetchMarketData()` call
receiving it resolves with that record and stores it in the cache — the claim
says such a payload is rejected wholesale with zero records accepted. -/
theorem empty_symbol_accepted_counterexample :
    validateStockData emptySymbolPayload = true ∧
    (fetchMarketData (fun _ => 0) 1000000 (.ok emptySymbolPayload) coldState).1 =
      .resolved [emptySymbolRecord] ∧
    (fetchMarketData (fun _ => 0) 1000000
        (.ok emptySymbolPayload) coldState).2.1.cache = [emptySymbolRecord] :=
  ⟨rfl, rfl, rfl⟩

/-- C2 amended: `fetchMarketData()` accepts a payload iff it is an array in
which every record is an object with a string `symbol` (possibly empty), a
`price` whose `Number()` coercion is not `NaN` (numeric strings included), and
a string `timestamp`; a payload failing this is rejected wholesale — the
cache and `lastUpdated` are left unchanged and, with an empty cache, the call
rejects with a validation error — while an accepted array replaces the cache
as a whole. -/
theorem validation_acceptance_amended (parseDate : String → Int) (now : Int)
    (body : JSVal) (s : ServiceState)
    (hvalid : isDataValid s now = false) (hflight : s.isFetching = false)
    (hurl : s.apiUrl.isSome = true) :
    (validateStockData body = true ↔
      ∃ items, body = .varr items ∧ ∀ item ∈ items, RecordAccepted item) ∧
    (validateStockData body = false →
      (fetchMarketData parseDate now (.ok body) s).2.1.cache = s.cache ∧
      (fetchMarketData parseDate now (.ok body) s).2.1.lastUpdated =
        s.lastUpdated ∧
      (s.cache = [] → (fetchMarketData parseDate now (.ok body) s).1 =
        .rejected ("Failed to fetch market data: " ++
          "Invalid market data format received from server"))) ∧
    (∀ items, body = .varr items → validateStockData body = true →
      (fetchMarketData parseDate now (.ok body) s).2.1.cache = items ∧
      (fetchMarketData parseDate now (.ok body) s).1 = .resolved items) := by
  obtain ⟨u, hu⟩ := Option.isSome_iff_exists.mp hurl
  have hmiss := fetchMarketData_miss parseDate now (.ok body) s hvalid hflight
  refine ⟨validateStockData_iff body, ?_, ?_⟩
  · intro hv
    rw [hmiss]
    simp only [fetchTry, hu, hv, Bool.false_eq_true, if_false]
    cases hc : s.cache with
    | nil => simp [fetchCatch, hc]
    | cons a l => simp [fetchCatch, hc]
  · intro items hbody hv
    subst hbody
    rw [hmiss]
    simp [fetchTry, hu, hv, asItems]

/-- C2 witness: a non-array payload is rejected with the cache, `lastUpdated`
untouched and the promise rejected, and a valid singleton array replaces the
cache wholesale. -/
theorem validation_acceptance_amended_witness :
    isDataValid coldState 1000000 = false ∧ coldState.isFetching = false ∧
    coldState.apiUrl.isSome = true ∧ validateStockData (.vstr "bad") = false ∧
    ((fetchMarketData (fun _ => 0) 1000000 (.ok (.vstr "bad")) coldState).2.1.cache =
      coldState.cache ∧
     (fetchMarketData (fun _ => 0) 1000000 (.ok (.vstr "bad")) coldState).2.1.lastUpdated =
      coldState.lastUpdated ∧
     (coldState.cache = [] →
       (fetchMarketData (fun _ => 0) 1000000 (.ok (.vstr "bad")) coldState).1 =
         .rejected
           "Failed to fetch market data: Invalid market data format received from server")) ∧
    ((fetchMarketData (fun _ => 0) 1000000 (.ok (.varr [abcRecord])) coldState).2.1.cache =
      [abcRecord] ∧
     (fetchMarketData (fun _ => 0) 1000000 (.ok (.varr [abcRecord])) coldState).1 =
      .resolved [abcRecord]) :=
  ⟨rfl, rfl, rfl, rfl,
   (validation_acceptance_amended (fun _ => 0) 1000000 (.vstr "bad") coldState
      rfl rfl rfl).2.1 rfl,
   (validation_acceptance_amended (fun _ => 0) 1000000 (.varr [abcRecord]) coldState
      rfl rfl rfl).2.2 [abcRecord] rfl rfl⟩

/-! ## C3 -/

/-- C3 counterexample: a successful cache write does **not** set the cache
timestamp to the time of the write.  With the clock at `now = 1000000` and a
payload whose records carry timestamp `"1970-01-01T00:00:00Z"` (parsing to 0),
the write stores `lastUpdated = some 0`, not `some 1000000`; one millisecond
after the write (`T' − T = 1 < 5 min`) `isDataValid` is already false, though
the claim requires it to be true. -/
theorem put_timestamp_counterexample :
    (fetchMarketData (fun _ => 0) 1000000 (.ok (.varr [abcRecord])) coldState).1 =
      .resolved [abcRecord] ∧
    (fetchMarketData (fun _ => 0) 1000000
        (.ok (.varr [abcRecord])) coldState).2.1.lastUpdated = some 0 ∧
    (fetchMarketData (fun _ => 0) 1000000
        (.ok (.varr [abcRecord])) coldState).2.1.lastUpdated ≠ some 1000000 ∧
    ((1000001 : Int) - 1000000 < CACHE_DURATION) ∧
    isDataValid (fetchMarketData (fun _ => 0) 1000000
        (.ok (.varr [abcRecord])) coldState).2.1 1000001 = false :=
  ⟨rfl, rfl, by decide, by decide, rfl⟩

/-- C3 amended: a successful write of a non-empty validated payload sets
`lastUpdated` to `new Date(lastItem.timestamp)` — the timestamp embedded in
the **last record of the payload**, not the time of the write — and
`isDataValid` subsequently answers `true` at exactly the query times `t` with
`t − parseDate(lastTimestamp) < 5 minutes`. -/
theorem put_timestamp_amended (parseDate : String → Int) (now : Int)
    (items : List JSVal) (s : ServiceState)
    (hvalid : isDataValid s now = false) (hflight : s.isFetching = false)
    (hurl : s.apiUrl.isSome = true)
    (hv : validateStockData (.varr items) = true) (hne : items ≠ []) :
    (fetchMarketData parseDate now (.ok (.varr items)) s).2.1.lastUpdated =
      some (parseDate (lastTimestamp items)) ∧
    ∀ t : Int,
      isDataValid (fetchMarketData parseDate now (.ok (.varr items)) s).2.1 t =
        decide (t - parseDate (lastTimestamp items) < CACHE_DURATION) := by
  obtain ⟨u, hu⟩ := Option.isSome_iff_exists.mp hurl
  have hlen : 0 < items.length := List.length_pos.mpr hne
  have hstate : fetchMarketData parseDate now (.ok (.varr items)) s =
      (.resolved items,
       { s with lastUpdated := some (parseDate (lastTimestamp items)),
                cache := items, isFetching := false }, true) := by
    rw [fetchMarketData_miss parseDate now (.ok (.varr items)) s hvalid hflight]
    simp [fetchTry, hu, hv, asItems, hlen]
  rw [hstate]
  refine ⟨rfl, fun t => ?_⟩
  simp [isDataValid, hlen]

/-- C3 witness: the concrete write of `put_timestamp_counterexample`, checked
through the amended statement at query time 3000000. -/
theorem put_timestamp_amended_witness :
    isDataValid coldState 1000000 = false ∧ coldState.isFetching = false ∧
    coldState.apiUrl.isSome = true ∧
    validateStockData (.varr [abcRecord]) = true ∧ [abcRecord] ≠ [] ∧
    (fetchMarketData (fun _ => 0) 1000000
        (.ok (.varr [abcRecord])) coldState).2.1.lastUpdated = some 0 ∧
    isDataValid (fetchMarketData (fun _ => 0) 1000000
        (.ok (.varr [abcRecord])) coldState).2.1 3000000 = false :=
  ⟨rfl, rfl, rfl, rfl, by simp,
   (put_timestamp_amended (fun _ => 0) 1000000 [abcRecord] coldState
      rfl rfl rfl rfl (by simp)).1,
   (put_timestamp_amended (fun _ => 0) 1000000 [abcRecord] coldState
      rfl rfl rfl rfl (by simp)).2 3000000⟩

/-! ## C8 -/

/-- C8 counterexample: with the API URL environment variable absent and a
stale (expired but non-empty) cache, `fetchMarketData()` does **not** surface
the configuration error — it resolves with the stale cached snapshot. -/
theorem config_error_fallback_counterexample :
    staleNoUrlState.apiUrl = none ∧
    isDataValid staleNoUrlState 1000000 = false ∧
    staleNoUrlState.cache ≠ [] ∧
    (fetchMarketData (fun _ => 0) 1000000 (.transportError "unused")
        staleNoUrlState).1 = .resolved staleNoUrlState.cache :=
  ⟨rfl, rfl, by simp [staleNoUrlState], rfl⟩

/-- C8 amended: when the base API URL is absent, a `fetchMarketData()` call
that misses the cache performs no network request and raises the descriptive
configuration error internally, but that error follows the same
stale-fallback policy as any other failure: the call rejects with it if and
only if the cache is empty, and otherwise resolves with the stale cached
snapshot; the service state is unchanged either way. -/
theorem config_error_amended (parseDate : String → Int) (now : Int)
    (resp : FetchResp) (s : ServiceState)
    (hvalid : isDataValid s now = false) (hflight : s.isFetching = false)
    (hurl : s.apiUrl = none) :
    (fetchMarketData parseDate now resp s).2.2 = false ∧
    (fetchMarketData parseDate now resp s).2.1 = s ∧
    (s.cache = [] → (fetchMarketData parseDate now resp s).1 =
      .rejected ("Failed to fetch market data: " ++
        "API URL is not configured. Please check your environment variables.")) ∧
    (s.cache ≠ [] →
      (fetchMarketData parseDate now resp s).1 = .resolved s.cache) := by
  obtain ⟨apiUrl, lastUpdated, cache, isFetching⟩ := s
  simp only at hflight hurl
  subst hflight hurl
  rw [fetchMarketData_miss parseDate now resp _ hvalid rfl]
  simp only [fetchTry]
  cases hc : cache with
  | nil => simp [fetchCatch, hc]
  | cons a l => simp [fetchCatch, hc]

/-- C8 witness: the stale-cache fallback and the empty-cache rejection, both
with the URL missing. -/
theorem config_error_amended_witness :
    (isDataValid staleNoUrlState 1000000 = false ∧
      staleNoUrlState.isFetching = false ∧ staleNoUrlState.apiUrl = none ∧
      (fetchMarketData (fun _ => 0) 1000000 (.transportError "unused")
          staleNoUrlState).2.2 = false ∧
      (fetchMarketData (fun _ => 0) 1000000 (.transportError "unused")
          staleNoUrlState).2.1 = staleNoUrlState) ∧
    (isDataValid (initialState none) 1000000 = false ∧
      (initialState none).cache = [] ∧
      (fetchMarketData (fun _ => 0) 1000000 (.transportError "unused")
          (initialState none)).1 =
        .rejected ("Failed to fetch market data: " ++
          "API URL is not configured. Please check your environment variables.")) :=
  ⟨⟨rfl, rfl, rfl,
    (config_error_amended (fun _ => 0) 1000000 (.transportError "unused")
        staleNoUrlState rfl rfl rfl).1,
    (config_error_amended (fun _ => 0) 1000000 (.transportError "unused")
        staleNoUrlState rfl rfl rfl).2.1⟩,
   ⟨rfl, rfl,
    (config_error_amended (fun _ => 0) 1000000 (.transportError "unused")
        (initialState none) rfl rfl rfl).2.2.1 rfl⟩⟩

/-! ## C10 -/

/-- C10: a successful fetch whose payload is the empty array passes
validation, resolves with the empty array, empties the cache, leaves
`lastUpdated` unchanged, and — since an empty cache is never valid — the next
`fetchMarketData()` call performs another network request whatever response
it then receives. -/
theorem empty_payload_accepted (parseDate : String → Int) (now : Int)
    (s : ServiceState) (hvalid : isDataValid s now = false)
    (hflight : s.isFetching = false) (hurl : s.apiUrl.isSome = true) :
    validateStockData (.varr []) = true ∧
    (fetchMarketData parseDate now (.ok (.varr [])) s).1 = .resolved [] ∧
    (fetchMarketData parseDate now (.ok (.varr [])) s).2.1.cache = [] ∧
    (fetchMarketData parseDate now (.ok (.varr [])) s).2.1.lastUpdated =
      s.lastUpdated ∧
    (fetchMarketData parseDate now (.ok (.varr [])) s).2.2 = true ∧
    (∀ t : Int,
      isDataValid (fetchMarketData parseDate now (.ok (.varr [])) s).2.1 t =
        false) ∧
    (∀ (t : Int) (resp2 : FetchResp),
      (fetchMarketData parseDate t resp2
        (fetchMarketData parseDate now (.ok (.varr [])) s).2.1).2.2 = true) := by
  obtain ⟨u, hu⟩ := Option.isSome_iff_exists.mp hurl
  have hmiss := fetchMarketData_miss parseDate now (.ok (.varr [])) s hvalid hflight
  have hstate : fetchMarketData parseDate now (.ok (.varr [])) s =
      (.resolved [], { s with cache := [], isFetching := false }, true) := by
    rw [hmiss]
    simp [fetchTry, hu, validateStockData, asItems]
  rw [hstate]
  have hinvalid : ∀ t : Int,
      isDataValid ({ s with cache := [], isFetching := false }) t = false := by
    intro t
    simp [isDataValid]
  refine ⟨rfl, rfl, rfl, rfl, rfl, hinvalid, ?_⟩
  intro t resp2
  rw [fetchMarketData_miss parseDate t resp2 _ (hinvalid t) rfl]
  cases resp2 with
  | transportError m => simp [fetchTry, hu]
  | httpError status bodyText => simp [fetchTry, hu]
  | jsonError m => simp [fetchTry, hu]
  | ok body =>
      simp only [fetchTry, hu]
      split <;> rfl

/-- C10 witness: the empty-array payload on a cold service, with the
subsequent call's network flag checked for one concrete response. -/
theorem empty_payload_accepted_witness :
    isDataValid coldState 1000000 = false ∧ coldState.isFetching = false ∧
    coldState.apiUrl.isSome = true ∧
    (fetchMarketData (fun _ => 0) 1000000 (.ok (.varr [])) coldState).1 =
      .resolved [] ∧
    (fetchMarketData (fun _ => 0) 1000000
        (.ok (.varr [])) coldState).2.1.lastUpdated = coldState.lastUpdated ∧
    isDataValid (fetchMarketData (fun _ => 0) 1000000
        (.ok (.varr [])) coldState).2.1 1000001 = false ∧
    (fetchMarketData (fun _ => 0) 1000001 (.httpError 500 "boom")
        (fetchMarketData (fun _ => 0) 1000000
          (.ok (.varr [])) coldState).2.1).2.2 = true :=
  ⟨rfl, rfl, rfl,
   (empty_payload_accepted (fun _ => 0) 1000000 coldState rfl rfl rfl).2.1,
   (empty_payload_accepted (fun _ => 0) 1000000 coldState rfl rfl rfl).2.2.2.1,
   (empty_payload_accepted (fun _ => 0) 1000000 coldState rfl rfl rfl).2.2.2.2.2.1
     1000001,
   (empty_payload_accepted (fun _ => 0) 1000000 coldState rfl rfl rfl).2.2.2.2.2.2
     1000001 (.httpError 500 "boom")⟩

/-! ## C6 -/

/-- A status poll reporting phase `complete`. -/
def completeStatus : RefreshStatus :=
  { status := "complete", progress := 100, current_ticker := "",
    total_tickers := 10, processed_tickers := 10, error := none }

/-- C6 counterexample: when a poll reports `complete` while the service holds
a cache entry still within its TTL (here stored mid-refresh), the handler
performs **no** invalidation and the triggered `fetchMarketData()` serves the
cached snapshot without any network request — the claim says the cache is
cleared and the fetch always goes to the network. -/
theorem refresh_complete_serves_cache_counterexample :
    isDataValid warmState 1000000 = true ∧
    (pollRefreshStatusStep (fun _ => 0) 1000000 (.httpError 500 "down")
        completeStatus warmState).2.2 = false ∧
    (pollRefreshStatusStep (fun _ => 0) 1000000 (.httpError 500 "down")
        completeStatus warmState).1 = .finished (.resolved warmState.cache) ∧
    (pollRefreshStatusStep (fun _ => 0) 1000000 (.httpError 500 "down")
        completeStatus warmState).2.1 = warmState :=
  ⟨rfl, rfl, rfl, rfl⟩

/-- C6 amended: the invalidation happens at **trigger** time — a successful
`refreshData()` clears the cache and `lastUpdated` — while the `complete`
handler merely calls `fetchMarketData()`: that call goes to the network if
and only if the cache is invalid at that moment, and a snapshot cached
between trigger and completion (still within TTL) is served with no network
request. -/
theorem refresh_invalidation_amended (parseDate : String → Int) (now : Int)
    (fetchResp : FetchResp) (st : RefreshStatus) (s : ServiceState)
    (hst : st.status = "complete") (u : String) (hu : s.apiUrl = some u) :
    (∀ body : JSVal,
      (refreshData (.ok body) s).1 = .ok () ∧
      (refreshData (.ok body) s).2.cache = [] ∧
      (refreshData (.ok body) s).2.lastUpdated = none) ∧
    (isDataValid s now = false → s.isFetching = false →
      (pollRefreshStatusStep parseDate now fetchResp st s).2.2 = true) ∧
    (isDataValid s now = true →
      pollRefreshStatusStep parseDate now fetchResp st s =
        (.finished (.resolved s.cache), s, false)) := by
  refine ⟨fun body => ?_, fun hvalid hflight => ?_, fun hvalid => ?_⟩
  · simp [refreshData, hu]
  · simp only [pollRefreshStatusStep, hst]
    norm_num
    exact fetchMarketData_miss_network parseDate now fetchResp s hvalid hflight u hu
  · simp only [pollRefreshStatusStep, hst]
    rw [fetchMarketData_hit parseDate now fetchResp s hvalid, if_neg (by decide)]
    simp

/-- C6 witness: trigger-time clearing on the warm service, a network fetch
after completion on a cold service, and the cached-snapshot serve after
completion on the warm service. -/
theorem refresh_invalidation_amended_witness :
    completeStatus.status = "complete" ∧ warmState.apiUrl = some "http://localhost:8000" ∧
    ((refreshData (.ok (.vobj [("status", .vstr "started")])) warmState).2.cache = [] ∧
     (refreshData (.ok (.vobj [("status", .vstr "started")])) warmState).2.lastUpdated = none) ∧
    (isDataValid coldState 1000000 = false ∧
      (pollRefreshStatusStep (fun _ => 0) 1000000 (.httpError 500 "down")
          completeStatus coldState).2.2 = true) ∧
    (isDataValid warmState 1000000 = true ∧
      pollRefreshStatusStep (fun _ => 0) 1000000 (.httpError 500 "down")
          completeStatus warmState =
        (.finished (.resolved warmState.cache), warmState, false)) :=
  ⟨rfl, rfl,
   ⟨((refresh_invalidation_amended (fun _ => 0) 1000000 (.httpError 500 "down")
        completeStatus warmState rfl "http://localhost:8000" rfl).1
        (.vobj [("status", .vstr "started")])).2.1,
    ((refresh_invalidation_amended (fun _ => 0) 1000000 (.httpError 500 "down")
        completeStatus warmState rfl "http://localhost:8000" rfl).1
        (.vobj [("status", .vstr "started")])).2.2⟩,
   ⟨rfl,
    (refresh_invalidation_amended (fun _ => 0) 1000000 (.httpError 500 "down")
        completeStatus coldState rfl "http://localhost:8000" rfl).2.1 rfl rfl⟩,
   ⟨rfl,
    (refresh_invalidation_amended (fun _ => 0) 1000000 (.httpError 500 "down")
        completeStatus warmState rfl "http://localhost:8000" rfl).2.2 rfl⟩⟩

/-! ## C7 -/

/-- A 2xx trigger response whose body reports `{status: "error",
message: "busy"}` — spec E2E scenario D. -/
def busyBody : JSVal := .vobj [("status", .vstr "error"), ("message", .vstr "busy")]

/-- C7 counterexample: a refresh trigger answered 2xx with body
`{status:"error", message:"busy"}` is treated as a **success** — `refreshData`
resolves (clearing the cache) instead of rejecting with `"busy"`, and
`handleRefresh` proceeds into the status-polling loop. -/
theorem refresh_trigger_status_ignored_counterexample :
    refreshData (.ok busyBody) staleState =
      (.ok (), { staleState with cache := [], lastUpdated := none }) ∧
    (handleRefresh (.ok busyBody) staleState).1 = true :=
  ⟨rfl, rfl⟩

/-- C7 amended: `refreshData()` rejects exactly on transport errors and
non-2xx HTTP responses (using the body's `message` when present, else a
default); the body of a 2xx response is never inspected, so any 2xx trigger
response — whatever status its body indicates — resolves, clears the cache,
and lets `handleRefresh` enter the polling loop; polling is skipped exactly
when the trigger rejects. -/
theorem refresh_trigger_amended (resp : RefreshResp) (s : ServiceState)
    (u : String) (hu : s.apiUrl = some u) :
    (∀ body, resp = .ok body →
      refreshData resp s = (.ok (), { s with cache := [], lastUpdated := none }) ∧
      (handleRefresh resp s).1 = true) ∧
    (∀ status statusText body, resp = .httpError status statusText body →
      (refreshData resp s).1 = .error ((bodyMessage body).getD
        ("Failed to refresh data: " ++ toString status ++ " " ++ statusText)) ∧
      (handleRefresh resp s).1 = false) ∧
    (∀ m, resp = .transportError m →
      (refreshData resp s).1 = .error m ∧ (handleRefresh resp s).1 = false) := by
  refine ⟨?_, ?_, ?_⟩
  · rintro body rfl
    exact ⟨by simp [refreshData, hu], by simp [handleRefresh, refreshData, hu]⟩
  · rintro status statusText body rfl
    exact ⟨by simp [refreshData, hu], by simp [handleRefresh, refreshData, hu]⟩
  · rintro m rfl
    exact ⟨by simp [refreshData, hu], by simp [handleRefresh, refreshData, hu]⟩

/-- C7 witness: the busy-body 2xx trigger enters polling, and a 503 whose
body carries `message:"busy"` rejects with `"busy"` without polling. -/
theorem refresh_trigger_amended_witness :
    staleState.apiUrl = some "http://localhost:8000" ∧
    (refreshData (.ok busyBody) staleState =
        (.ok (), { staleState with cache := [], lastUpdated := none }) ∧
      (handleRefresh (.ok busyBody) staleState).1 = true) ∧
    ((refreshData (.httpError 503 "Service Unavailable" (some busyBody))
        staleState).1 = .error "busy" ∧
      (handleRefresh (.httpError 503 "Service Unavailable" (some busyBody))
        staleState).1 = false) :=
  ⟨rfl,
   (refresh_trigger_amended (.ok busyBody) staleState
      "http://localhost:8000" rfl).1 busyBody rfl,
   (refresh_trigger_amended (.httpError 503 "Service Unavailable" (some busyBody))
      staleState "http://localhost:8000" rfl).2.1 503 "Service Unavailable"
      (some busyBody) rfl⟩

/-! ## C9 -/

/-- C9 counterexample: two interleaved calls on a cold **empty** cache with a
failing fetch.  Exactly one network request happens and the second caller
waits, but the callers do not all settle on the same error: the first caller
rejects while the waiter's `waitForCache` condition
(`!isFetching && cache.length > 0`) never becomes true, so the waiter never
resolves at all — contradicting "all N calls resolve to the same snapshot
(or the same stale fallback / error)". -/
theorem concurrent_empty_cache_error_counterexample :
    (runConcurrent 2 (fun _ => 0) 1000000 (.httpError 500 "boom")
        coldState).networkCalls = 1 ∧
    (∃ m, (runConcurrent 2 (fun _ => 0) 1000000 (.httpError 500 "boom")
        coldState).firstOutcome = .rejected m) ∧
    (runConcurrent 2 (fun _ => 0) 1000000 (.httpError 500 "boom")
        coldState).laterOutcomes = [.waiting] ∧
    (runConcurrent 2 (fun _ => 0) 1000000 (.httpError 500 "boom")
        coldState).waiterResolves = none :=
  ⟨rfl, ⟨_, rfl⟩, rfl, rfl⟩

/-- C9 amended: `n` interleaved calls on a cold cache trigger exactly one
network request and every later caller takes the `waitForCache` path; when
the sole request leaves a non-empty cache (fresh snapshot or stale fallback)
all waiters resolve with exactly that snapshot — the one the first caller
resolved with — but when the first caller rejects (possible only with an
empty cache) or resolves with an empty snapshot, the waiters never resolve. -/
theorem single_flight_amended (n : Nat) (parseDate : String → Int) (now : Int)
    (resp : FetchResp) (s0 : ServiceState) (hn : 1 ≤ n)
    (hvalid : isDataValid s0 now = false) (hflight : s0.isFetching = false)
    (u : String) (hu : s0.apiUrl = some u) :
    (runConcurrent n parseDate now resp s0).networkCalls = 1 ∧
    (runConcurrent n parseDate now resp s0).laterOutcomes =
      List.replicate (n - 1) .waiting ∧
    (runConcurrent n parseDate now resp s0).finalState.isFetching = false ∧
    ((runConcurrent n parseDate now resp s0).finalState.cache ≠ [] →
      (runConcurrent n parseDate now resp s0).waiterResolves =
        some (runConcurrent n parseDate now resp s0).finalState.cache) ∧
    ((runConcurrent n parseDate now resp s0).finalState.cache = [] →
      (runConcurrent n parseDate now resp s0).waiterResolves = none) ∧
    ((runConcurrent n parseDate now resp s0).firstOutcome =
        .resolved (runConcurrent n parseDate now resp s0).finalState.cache ∨
      (∃ m, (runConcurrent n parseDate now resp s0).firstOutcome = .rejected m) ∧
        (runConcurrent n parseDate now resp s0).finalState.cache = []) := by
  have hnet : (fetchMarketData parseDate now resp s0).2.2 = true :=
    fetchMarketData_miss_network parseDate now resp s0 hvalid hflight u hu
  have hg : isDataValid { s0 with isFetching := true } now = false := hvalid
  have hlater : fetchMarketData parseDate now resp { s0 with isFetching := true } =
      (.waiting, { s0 with isFetching := true }, false) := by
    simp [fetchMarketData, hg]
  have hf : (fetchMarketData parseDate now resp s0).2.1.isFetching = false :=
    (fetchMarketData_isFetching parseDate now resp s0).trans hflight
  refine ⟨?_, ?_, hf, ?_, ?_, ?_⟩
  · simp [runConcurrent, hnet, hlater, List.map_replicate, List.sum_replicate]
  · simp [runConcurrent, hlater, List.map_replicate]
  · intro hne
    have hne' : (fetchMarketData parseDate now resp s0).2.1.cache ≠ [] := hne
    simp only [runConcurrent]
    simp [waitForCacheResult, hf, List.length_pos.mpr hne']
  · intro hemp
    have hemp' : (fetchMarketData parseDate now resp s0).2.1.cache = [] := hemp
    simp only [runConcurrent]
    simp [waitForCacheResult, hemp']
  · rcases fetchMarketData_miss_outcome parseDate now resp s0 hvalid hflight u hu
      with h | ⟨⟨m, hm⟩, hc1, -⟩
    · left; exact h
    · right; exact ⟨⟨m, hm⟩, hc1⟩

/-- C9 witness: three interleaved callers on a cold service and a successful
one-record payload — one network call, two waiters, everyone gets the same
snapshot. -/
theorem single_flight_amended_witness :
    1 ≤ 3 ∧ isDataValid coldState 1000000 = false ∧
    coldState.isFetching = false ∧ coldState.apiUrl = some "http://localhost:8000" ∧
    (runConcurrent 3 (fun _ => 0) 1000000 (.ok (.varr [abcRecord]))
        coldState).networkCalls = 1 ∧
    (runConcurrent 3 (fun _ => 0) 1000000 (.ok (.varr [abcRecord]))
        coldState).laterOutcomes = List.replicate 2 .waiting ∧
    ((runConcurrent 3 (fun _ => 0) 1000000 (.ok (.varr [abcRecord]))
        coldState).finalState.cache ≠ [] →
      (runConcurrent 3 (fun _ => 0) 1000000 (.ok (.varr [abcRecord]))
        coldState).waiterResolves =
        some (runConcurrent 3 (fun _ => 0) 1000000 (.ok (.varr [abcRecord]))
          coldState).finalState.cache) :=
  ⟨by decide, rfl, rfl, rfl,
   (single_flight_amended 3 (fun _ => 0) 1000000 (.ok (.varr [abcRecord]))
      coldState (by decide) rfl rfl "http://localhost:8000" rfl).1,
   (single_flight_amended 3 (fun _ => 0) 1000000 (.ok (.varr [abcRecord]))
      coldState (by decide) rfl rfl "http://localhost:8000" rfl).2.1,
   (single_flight_amended 3 (fun _ => 0) 1000000 (.ok (.varr [abcRecord]))
      coldState (by decide) rfl rfl "http://localhost:8000" rfl).2.2.2.1⟩

end Biotech
